import Mathlib

/-!
Shallow embedding of `infobigan_torch/model.py` (the InfoBiGAN architecture:
orchestrator, dual discriminator, regularised generator/encoder, Q stack).

Two layers are modelled:

* an *architecture* layer: the constructors (`__init__`) of the four
  sub-networks and of the orchestrator, which derive per-layer hyperparameters
  and input/output dimensions from compact configuration;
* a *value* layer: the `forward` methods, acting on single batch elements
  represented as lists of rationals along the feature axis.

Modules imported by the source but absent from the repository snapshot
(`DCNetwork`/`DCTranspose` from `.conv`, `_listify`/`eps` from `.utils.utils`,
and `torch.nn` primitives) are modelled from the spec's opaque-collaborator
contracts; each such definition carries a doc comment saying so.
-/

namespace InfoBiGANTorch

/-- A hyperparameter supplied either as a scalar or as a per-layer sequence,
mirroring the `int or tuple` (resp. `bool or tuple`) parameters of the source. -/
inductive ScalarOrSeq (α : Type) where
  | scalar : α → ScalarOrSeq α
  | seq : List α → ScalarOrSeq α
deriving DecidableEq, Repr

/-- Configuration errors signalled at construction time. -/
inductive ConfigError where
  | invalidConfig
deriving DecidableEq, Repr

/-- Modelled from the spec: `_listify` from `infobigan_torch.utils.utils`
(module absent from the snapshot).  Given a scalar or a sequence and a target
length `n`, produce a sequence of length `n`: a sequence must already have
length `n` (otherwise an `InvalidConfigError` is signalled), a scalar is
broadcast into `n` identical copies. -/
def listify {α : Type} (x : ScalarOrSeq α) (n : Nat) : Except ConfigError (List α) :=
  match x with
  | .scalar a => .ok (List.replicate n a)
  | .seq l => if l.length = n then .ok l else .error .invalidConfig

/-- Modelled from the spec: the one-argument use `_listify(reg_categorical)` in
`InfoBiGAN.__init__` (no target length supplied).  A sequence passes through
unchanged; a scalar becomes a one-element sequence. -/
def listify1 {α : Type} (x : ScalarOrSeq α) : List α :=
  match x with
  | .scalar a => [a]
  | .seq l => l

/-- The construction interface of `InfoBiGAN.__init__`. -/
structure Config where
  channels : List Nat
  kernel_size : ScalarOrSeq Nat
  stride : ScalarOrSeq Nat
  padding : ScalarOrSeq Nat
  bias : ScalarOrSeq Bool
  manifest_dim : Nat
  latent_dim : Nat
  reg_categorical : List Nat
  reg_gaussian : Nat
deriving DecidableEq, Repr

/-- Modelled from the spec: the constructor arguments of the opaque `DCNetwork`
(module `.conv`, absent from the snapshot).  Only the arguments the source
passes are recorded; the spec's opaque-collaborator contract fixes the shape
behaviour (input depth `in_dim`-sided spatial map to `out_dim × 1 × 1`). -/
structure DCNetworkArch where
  channels : ScalarOrSeq Nat
  fc : Option (List Nat)
  kernel_size : ScalarOrSeq Nat
  stride : ScalarOrSeq Nat
  padding : ScalarOrSeq Nat
  bias : ScalarOrSeq Bool
  in_dim : Nat
  out_dim : Nat
  final_act : Option String
  batch_norm : Bool
  dropout : ℚ
  leak : Option ℚ
  embedded : Option (Bool × Bool)
deriving DecidableEq, Repr

/-- Arguments of a `nn.Conv2d` head as used in the source (all heads are
1×1 convolutions acting as affine maps on the feature axis). -/
structure Conv2dArch where
  in_channels : Nat
  out_channels : Nat
  kernel_size : Nat
  stride : Nat
  padding : Nat
  bias : Bool
deriving DecidableEq, Repr

/-- Architecture of `DualDiscriminator` as assembled by its `__init__`
(source lines 217–231): three `DCNetwork` stacks.  `reg_categorical` and
`reg_gaussian` are accepted by the constructor but unused there. -/
structure DualDiscriminator where
  x_discriminator : DCNetworkArch
  z_discriminator : DCNetworkArch
  zx_discriminator : DCNetworkArch
deriving DecidableEq, Repr

/-- `DualDiscriminator.__init__`. -/
def DualDiscriminator.init (manifest_dim latent_dim : Nat) (channels : List Nat)
    (kernel_size stride padding : List Nat) (bias : List Bool) :
    DualDiscriminator :=
  { x_discriminator :=
      { channels := .seq channels, fc := none, kernel_size := .seq kernel_size,
        stride := .seq stride, padding := .seq padding, bias := .seq bias,
        in_dim := manifest_dim, out_dim := latent_dim * 2,
        final_act := some "leaky", batch_norm := false, dropout := 3/10,
        leak := none, embedded := some (false, true) }
    z_discriminator :=
      { channels := .seq [latent_dim], fc := some [latent_dim * 2, latent_dim * 2],
        kernel_size := .scalar 1, stride := .scalar 1, padding := .scalar 0,
        bias := .scalar true, in_dim := 1, out_dim := latent_dim * 2,
        final_act := some "leaky", batch_norm := false, dropout := 3/10,
        leak := none, embedded := some (false, true) }
    zx_discriminator :=
      { channels := .seq [latent_dim * 4], fc := some [latent_dim * 4, latent_dim * 4],
        kernel_size := .scalar 1, stride := .scalar 1, padding := .scalar 0,
        bias := .scalar true, in_dim := 1, out_dim := 1,
        final_act := none, batch_norm := false, dropout := 3/10,
        leak := none, embedded := some (true, false) } }

/-- Architecture of `RegularisedEncoder` as assembled by its `__init__`
(source lines 312–336).  Note the source stores `len(reg_categorical)`,
not the tuple itself, in the attribute `reg_categorical`. -/
structure RegularisedEncoder where
  reg_gaussian : Nat
  reg_categorical : Nat
  conv : DCNetworkArch
  code_z : Conv2dArch
  code_categorical : List Conv2dArch
  code_gaussian : Option Conv2dArch
deriving DecidableEq, Repr

/-- `RegularisedEncoder.__init__`.  Each categorical head is a 1×1 `Conv2d`
followed by `Softmax(dim=1)`; the Gaussian head exists only when
`reg_gaussian > 0`. -/
def RegularisedEncoder.init (channels : List Nat)
    (kernel_size stride padding : List Nat) (bias : List Bool)
    (manifest_dim hidden_dim : Nat) (reg_categorical : List Nat)
    (reg_gaussian latent_noise_dim : Nat) : RegularisedEncoder :=
  { reg_gaussian := reg_gaussian
    reg_categorical := reg_categorical.length
    conv :=
      { channels := .seq channels, fc := none, kernel_size := .seq kernel_size,
        stride := .seq stride, padding := .seq padding, bias := .seq bias,
        in_dim := manifest_dim, out_dim := hidden_dim,
        final_act := some "leaky", batch_norm := false, dropout := 3/10,
        leak := none, embedded := some (false, true) }
    code_z := ⟨hidden_dim, latent_noise_dim, 1, 1, 0, true⟩
    code_categorical := reg_categorical.map (fun levels => ⟨hidden_dim, levels, 1, 1, 0, true⟩)
    code_gaussian :=
      if reg_gaussian > 0 then some ⟨hidden_dim, reg_gaussian, 1, 1, 0, true⟩ else none }

/-- Architecture of `RegularisedGenerator`: a `DCTranspose` subclass whose
`__init__` passes its arguments straight through (source lines 248–249); the
recorded fields are the arguments the orchestrator supplies. -/
structure RegularisedGenerator where
  channels : List Nat
  kernel_size : List Nat
  stride : List Nat
  padding : List Nat
  bias : List Bool
  latent_dim : Nat
  target_dim : Nat
  batch_norm : Bool
deriving DecidableEq, Repr

/-- Architecture of `QStack` as assembled by its `__init__` (source lines
382–415).  As in the source, the attribute `reg_categorical` holds the count of
categorical variables; the Gaussian pair of heads exists only when
`reg_gaussian > 0`.  Note the source passes `channels=(hidden_dim)`, which in
Python is the scalar `hidden_dim`, not a one-element tuple. -/
structure QStack where
  reg_gaussian : Nat
  reg_categorical : Nat
  q_input : DCNetworkArch
  q_cat : List Conv2dArch
  q_gaussian : Option (Conv2dArch × Conv2dArch)
deriving DecidableEq, Repr

/-- `QStack.__init__`. -/
def QStack.init (reg_categorical : List Nat) (reg_gaussian hidden_dim : Nat) :
    QStack :=
  { reg_gaussian := reg_gaussian
    reg_categorical := reg_categorical.length
    q_input :=
      { channels := .scalar hidden_dim, fc := none, kernel_size := .scalar 1,
        stride := .scalar 1, padding := .scalar 0, bias := .scalar true,
        in_dim := 1, out_dim := hidden_dim,
        final_act := some "leaky", batch_norm := false, dropout := 0,
        leak := some (1/5), embedded := none }
    q_cat := reg_categorical.map (fun levels => ⟨hidden_dim, levels, 1, 1, 0, true⟩)
    q_gaussian :=
      if reg_gaussian > 0 then
        some (⟨hidden_dim, reg_gaussian, 1, 1, 0, true⟩,
              ⟨hidden_dim, reg_gaussian, 1, 1, 0, true⟩)
      else none }

/-- The orchestrator's state after construction: the derived dimensions and
the four owned sub-networks. -/
structure InfoBiGAN where
  latent_dim : Nat
  latent_noise : Nat
  manifest_dim : Nat
  reg_gaussian : Nat
  reg_categorical : List Nat
  discriminator : DualDiscriminator
  encoder : RegularisedEncoder
  generator : RegularisedGenerator
  regulariser : QStack
deriving DecidableEq, Repr

/-- The body of `InfoBiGAN.__init__` after successful hyperparameter
normalisation (source lines 103–126): derive the total latent dimensionality
and build the four sub-networks. -/
def InfoBiGAN.assemble (cfg : Config)
    (kernel_size padding stride : List Nat) (bias : List Bool) : InfoBiGAN :=
  let latent_dim :=
    cfg.latent_dim + (listify1 (.seq cfg.reg_categorical)).sum + cfg.reg_gaussian
  let latent_noise := cfg.latent_dim
  { latent_dim := latent_dim
    latent_noise := latent_noise
    manifest_dim := cfg.manifest_dim
    reg_gaussian := cfg.reg_gaussian
    reg_categorical := cfg.reg_categorical
    discriminator :=
      DualDiscriminator.init cfg.manifest_dim latent_dim cfg.channels
        kernel_size stride padding bias
    encoder :=
      RegularisedEncoder.init cfg.channels kernel_size stride padding bias
        cfg.manifest_dim latent_noise cfg.reg_categorical cfg.reg_gaussian
        latent_noise
    generator :=
      { channels := cfg.channels.reverse, kernel_size := kernel_size.reverse,
        stride := stride.reverse, padding := padding.reverse,
        bias := bias.reverse, latent_dim := latent_dim,
        target_dim := cfg.manifest_dim, batch_norm := false }
    regulariser :=
      QStack.init cfg.reg_categorical cfg.reg_gaussian (latent_dim * 2) }

/-- `InfoBiGAN.__init__` (source lines 97–126): normalise the four
scalar-or-sequence hyperparameters against `len(channels) - 1` (a failed
normalisation aborts construction before any sub-network is built), then
assemble the four sub-networks. -/
def InfoBiGAN.init (cfg : Config) : Except ConfigError InfoBiGAN := do
  let n_conv := cfg.channels.length - 1
  let kernel_size ← listify cfg.kernel_size n_conv
  let padding ← listify cfg.padding n_conv
  let stride ← listify cfg.stride n_conv
  let bias ← listify cfg.bias n_conv
  return InfoBiGAN.assemble cfg kernel_size padding stride bias

/-! ## Value level: forward passes on single batch elements

A tensor of shape `(N, C, 1, 1)` is modelled, for one batch element, as a
list of rationals along the feature (channel) axis; `torch.cat(…, 1)` becomes
list append and the `view` reshapes become the identity. -/

/-- Errors a forward pass can raise: `KeyError` for a missing dictionary key. -/
inductive ForwardError where
  | keyError
deriving DecidableEq, Repr

/-- Modelled from the spec: `eps` from `infobigan_torch.utils.utils`
(module absent from the snapshot): "a small positive numerical-stability
constant (epsilon)".  No claim depends on its value. -/
def eps : ℚ := 1 / 100000000

/-- Dot product along the feature axis. -/
def dot (w x : List ℚ) : ℚ := (List.zipWith (· * ·) w x).sum

/-- Parameters of a 1×1 `nn.Conv2d` acting on a `(C, 1, 1)` feature map:
an affine map given by one weight row and one bias per output channel. -/
structure Conv1x1 where
  weight : List (List ℚ)
  bias : List ℚ
deriving DecidableEq, Repr

/-- Apply a 1×1 convolution head to a feature vector. -/
def Conv1x1.apply (c : Conv1x1) (x : List ℚ) : List ℚ :=
  List.zipWith (fun w b => dot w x + b) c.weight c.bias

/-- Well-formedness of a 1×1 convolution head, guaranteed by `nn.Conv2d`
construction: one bias per output channel, and at least one output channel. -/
def Conv1x1.wf (c : Conv1x1) : Prop :=
  c.weight.length = c.bias.length ∧ c.weight ≠ []

instance (c : Conv1x1) : Decidable c.wf := by
  unfold Conv1x1.wf; infer_instance

/-- `nn.Softmax(dim=1)` along the feature axis.  The exponential is abstracted
as a map `e` (strictly positive for the real `exp`), keeping the definition
executable over ℚ. -/
def softmax (e : ℚ → ℚ) (v : List ℚ) : List ℚ :=
  (v.map e).map (fun a => a / (v.map e).sum)

/-- Modelled from the spec: a constructed `DCNetwork` (module `.conv`, absent
from the snapshot) is, per the opaque-collaborator contract, "a deterministic
function tensor(N, C_in, H, H) → tensor(N, C_out, 1, 1)"; one batch element of
it is a plain function on feature vectors. -/
structure DCNetworkFn where
  apply : List ℚ → List ℚ

/-- Modelled from the spec: a constructed `DCTranspose` (module `.conv`,
absent from the snapshot) is a deterministic function
tensor(N, C_in, 1, 1) → tensor(N, C_out, manifest_dim, manifest_dim); one
batch element of it is a function from a feature vector to the flattened
manifest-space tensor. -/
structure DCTransposeFn where
  apply : List ℚ → List ℚ

/-- The structured latent code threaded through the networks: the encoder's
return value `(c, z)` where `c = {'categorical': […], ['gaussian': …]}` and
`z` is the unregularised noise.  The `'gaussian'` entry is absent (`none`)
when the producing encoder was built with `reg_gaussian == 0`. -/
structure StructuredCode where
  categorical : List (List ℚ)
  gaussian : Option (List ℚ)
  noise : List ℚ
deriving DecidableEq, Repr

/-- The latent argument accepted by generator and discriminator forwards:
either a structured `(c, z)` tuple or an already-flat vector
(the `isinstance(z, tuple)` check in the source). -/
inductive LatentInput where
  | structured : StructuredCode → LatentInput
  | flat : List ℚ → LatentInput
deriving DecidableEq, Repr

/-- The flattening step of `DualDiscriminator.forward` (source lines 234–236):
`torch.cat([z[1], z[0]['gaussian'], *z[0]['categorical']], 1)` when the input
is a tuple; the dictionary access `z[0]['gaussian']` raises `KeyError` when the
structured code has no Gaussian component. -/
def DualDiscriminator.flattenLatent : LatentInput → Except ForwardError (List ℚ)
  | .structured zc =>
      match zc.gaussian with
      | some g => .ok (zc.noise ++ g ++ zc.categorical.flatten)
      | none => .error .keyError
  | .flat v => .ok v

/-- The flattening step of `RegularisedGenerator.forward` (source lines
252–254): `torch.cat([zc[1], zc[0]['gaussian'], *zc[0]['categorical']], 1)`
when the input is a tuple; the dictionary access `zc[0]['gaussian']` raises
`KeyError` when the structured code has no Gaussian component. -/
def RegularisedGenerator.flattenLatent : LatentInput → Except ForwardError (List ℚ)
  | .structured zc =>
      match zc.gaussian with
      | some g => .ok (zc.noise ++ g ++ zc.categorical.flatten)
      | none => .error .keyError
  | .flat v => .ok v

/-- Re-splitting a flat vector into per-component blocks of the given widths
(spec round-trip law: "re-splitting it by the known per-component widths"). -/
def splitParts : List Nat → List ℚ → List (List ℚ)
  | [], _ => []
  | n :: ns, v => v.take n :: splitParts ns (v.drop n)

/-- Re-splitting a flat latent vector at the known widths, in the canonical
order `[noise, gaussian, *categorical]`: first `noiseDim` coordinates, next
`gaussDim`, then one block per categorical level count. -/
def splitCode (noiseDim gaussDim : Nat) (levels : List Nat) (v : List ℚ) :
    List ℚ × List ℚ × List (List ℚ) :=
  (v.take noiseDim, (v.drop noiseDim).take gaussDim,
    splitParts levels ((v.drop noiseDim).drop gaussDim))

/-- Parameters of an initialised `DualDiscriminator`: its three opaque
sub-network stacks. -/
structure DualDiscriminatorFn where
  x_discriminator : DCNetworkFn
  z_discriminator : DCNetworkFn
  zx_discriminator : DCNetworkFn

/-- `DualDiscriminator.forward` (source lines 233–241): flatten a structured
latent input, run the latent and manifest representational stacks, concatenate
the two representations, add `eps` elementwise, run the joint stack, and
return the decision together with the manifest representation. -/
def DualDiscriminatorFn.forward (D : DualDiscriminatorFn) (z : LatentInput)
    (x : List ℚ) : Except ForwardError (List ℚ × List ℚ) := do
  let zf ← DualDiscriminator.flattenLatent z
  let zr := D.z_discriminator.apply zf
  let xr := D.x_discriminator.apply x
  let zx := (zr ++ xr).map (fun a => a + eps)
  return (D.zx_discriminator.apply zx, xr)

/-- `RegularisedGenerator.forward` (source lines 251–256): flatten a
structured latent input and run the opaque transpose-convolutional stack. -/
def RegularisedGeneratorFn.forward (net : DCTransposeFn) (zc : LatentInput) :
    Except ForwardError (List ℚ) := do
  let v ← RegularisedGenerator.flattenLatent zc
  return net.apply v

/-- Parameters of an initialised `RegularisedEncoder`: the opaque
convolutional stack and the output heads.  As in the source, the field
`reg_categorical` holds the count of categorical variables and the Gaussian
head is present only when built with `reg_gaussian > 0`. -/
structure RegularisedEncoderFn where
  reg_gaussian : Nat
  reg_categorical : Nat
  conv : DCNetworkFn
  code_z : Conv1x1
  code_categorical : List Conv1x1
  code_gaussian : Option Conv1x1

set_option linter.unusedVariables false in
/-- `RegularisedEncoder.forward` (source lines 338–346).  `e` abstracts the
exponential used by `Softmax`; `rng` threads the runtime's ambient random
stream, which the body never consumes: every layer of this forward pass is
deterministic (the opaque `DCNetwork` by the spec's collaborator contract, the
1×1 convolution heads and `Softmax` by construction). -/
def RegularisedEncoderFn.forward (E : RegularisedEncoderFn) (e : ℚ → ℚ)
    (rng : Nat) (x : List ℚ) : StructuredCode :=
  let zc := E.conv.apply x
  let z := E.code_z.apply zc
  let cats := (List.range E.reg_categorical).map
    (fun i => softmax e ((E.code_categorical.getD i ⟨[], []⟩).apply zc))
  let gauss :=
    if E.reg_gaussian > 0 then E.code_gaussian.map (fun h => h.apply zc) else none
  ⟨cats, gauss, z⟩

/-- Output of `QStack.forward`: categorical probability vectors plus, when
Gaussian variables exist, a `(mean, logstd)` pair. -/
structure QOutput where
  categorical : List (List ℚ)
  gaussian : Option (List ℚ × List ℚ)
deriving DecidableEq, Repr

/-- Parameters of an initialised `QStack`. -/
structure QStackFn where
  reg_gaussian : Nat
  reg_categorical : Nat
  q_input : DCNetworkFn
  q_cat : List Conv1x1
  q_mean : Option Conv1x1
  q_logstd : Option Conv1x1

/-- `QStack.forward` (source lines 417–427). -/
def QStackFn.forward (Q : QStackFn) (e : ℚ → ℚ) (x : List ℚ) : QOutput :=
  let h := Q.q_input.apply x
  let cats := (List.range Q.reg_categorical).map
    (fun i => softmax e ((Q.q_cat.getD i ⟨[], []⟩).apply h))
  let gauss :=
    if Q.reg_gaussian > 0 then
      some ((Q.q_mean.getD ⟨[], []⟩).apply h, (Q.q_logstd.getD ⟨[], []⟩).apply h)
    else none
  ⟨cats, gauss⟩

/-- Modelled from the spec: the shape side of the opaque-collaborator contract
for `DCNetwork` — a constructed stack deterministically maps its input to a
feature vector whose depth is the `out_dim` it was constructed with. -/
def RealisesDepth (f : DCNetworkFn) (d : Nat) : Prop :=
  ∀ x, (f.apply x).length = d

/-! ## Parameter loading -/

/-- One named parameter tensor of a state dict: its declared shape and its
(flattened) values. -/
structure ParamTensor where
  shape : List Nat
  data : List ℚ
deriving DecidableEq, Repr

/-- A parameter set (state dict) for one sub-network: its parameter tensors in
declaration order. -/
abbrev ParamSet : Type := List ParamTensor

/-- The declared shapes of a parameter set. -/
def ParamSet.shapes (p : ParamSet) : List (List Nat) := p.map ParamTensor.shape

/-- Errors raised while loading parameters. -/
inductive LoadError where
  | mismatch
deriving DecidableEq, Repr

/-- Modelled from the spec: the per-sub-network `load_state_dict` (a `torch.nn`
primitive, external collaborator).  Per the spec's parameter-load contract,
the supplied set "must exactly match the corresponding sub-network's declared
parameter shapes", and a mismatch is "fatal, aborts the load for that
sub-network (no partial application of a mismatched set)". -/
def loadSubNet (current new : ParamSet) : Except LoadError ParamSet :=
  if current.shapes = new.shapes then .ok new else .error .mismatch

/-- The mutable parameter state of an assembled InfoBiGAN: one parameter set
per owned sub-network. -/
structure InfoBiGANParams where
  generator : ParamSet
  encoder : ParamSet
  discriminator : ParamSet
  regulariser : ParamSet
deriving DecidableEq, Repr

/-- `InfoBiGAN.load_state_dict` (source lines 152–156): load the four
sub-networks sequentially — encoder, generator, discriminator, regulariser —
stopping at the first mismatch.  As in Python, an exception raised by a later
load leaves the mutations already applied by earlier loads in place; the
result is the final parameter state together with the error, if any. -/
def InfoBiGANParams.load_state_dict (m : InfoBiGANParams)
    (params_g params_e params_d params_q : ParamSet) :
    InfoBiGANParams × Option LoadError :=
  match loadSubNet m.encoder params_e with
  | .error err => (m, some err)
  | .ok e' =>
    match loadSubNet m.generator params_g with
    | .error err => ({ m with encoder := e' }, some err)
    | .ok g' =>
      match loadSubNet m.discriminator params_d with
      | .error err => ({ m with encoder := e', generator := g' }, some err)
      | .ok d' =>
        match loadSubNet m.regulariser params_q with
        | .error err =>
            ({ m with encoder := e', generator := g', discriminator := d' }, some err)
        | .ok q' => (⟨g', e', d', q'⟩, none)

/-! ## Concrete instances used by the witnesses -/

/-- The default configuration of `InfoBiGAN.__init__` (source lines 43–52). -/
def defaultConfig : Config :=
  { channels := [1, 128, 256, 512, 1024], kernel_size := .scalar 4,
    stride := .scalar 2, padding := .seq [3, 1, 1, 1], bias := .scalar false,
    manifest_dim := 28, latent_dim := 100, reg_categorical := [10],
    reg_gaussian := 2 }

/-- The orchestrator built from the default configuration. -/
def defaultInfoBiGAN : InfoBiGAN :=
  InfoBiGAN.assemble defaultConfig [4, 4, 4, 4] [3, 1, 1, 1] [2, 2, 2, 2]
    [false, false, false, false]

/-- A minimal configuration: one convolutional layer, total latent width
`1 + 2 + 1 = 4`. -/
def smallConfig : Config :=
  { channels := [1, 2], kernel_size := .scalar 4, stride := .scalar 2,
    padding := .scalar 3, bias := .scalar false, manifest_dim := 4,
    latent_dim := 1, reg_categorical := [2], reg_gaussian := 1 }

/-- The orchestrator built from `smallConfig`. -/
def smallInfoBiGAN : InfoBiGAN :=
  InfoBiGAN.assemble smallConfig [4] [3] [2] [false]

/-- A discriminator parameter set whose manifest-space stack constantly
outputs a depth-8 representation. -/
def constantDiscriminator : DualDiscriminatorFn :=
  { x_discriminator := ⟨fun _ => List.replicate 8 0⟩
    z_discriminator := ⟨fun _ => []⟩
    zx_discriminator := ⟨fun _ => []⟩ }

/-- Parameters of an encoder built with `reg_gaussian = 0` and one two-level
categorical variable: its output dictionary has no `'gaussian'` entry. -/
def encoderNoGaussian : RegularisedEncoderFn :=
  { reg_gaussian := 0
    reg_categorical := 1
    conv := ⟨fun v => v⟩
    code_z := ⟨[[1]], [0]⟩
    code_categorical := [⟨[[1], [0]], [0, 0]⟩]
    code_gaussian := none }

/-- A configuration whose sequence-valued `kernel_size` has length 1 while
`len(channels) - 1 = 2`. -/
def badKernelConfig : Config :=
  { channels := [1, 2, 3], kernel_size := .seq [4], stride := .scalar 2,
    padding := .scalar 1, bias := .scalar false, manifest_dim := 4,
    latent_dim := 1, reg_categorical := [2], reg_gaussian := 1 }

/-- Parameters of an encoder with one two-level categorical head (identity
convolutional stack, unit weights). -/
def exEncoder : RegularisedEncoderFn :=
  { reg_gaussian := 1
    reg_categorical := 1
    conv := ⟨fun v => v⟩
    code_z := ⟨[[1]], [0]⟩
    code_categorical := [⟨[[1], [0]], [0, 0]⟩]
    code_gaussian := some ⟨[[1]], [0]⟩ }

/-- Parameters of a Q stack with one two-level categorical head. -/
def exQStack : QStackFn :=
  { reg_gaussian := 1
    reg_categorical := 1
    q_input := ⟨fun v => v⟩
    q_cat := [⟨[[1], [0]], [0, 0]⟩]
    q_mean := some ⟨[[1]], [0]⟩
    q_logstd := some ⟨[[1]], [0]⟩ }

/-! ## Theorems -/

/-- A successful construction is an assembly from successfully normalised
hyperparameters (shared helper for the construction-level claims). -/
theorem InfoBiGAN.init_ok {cfg : Config} {m : InfoBiGAN}
    (h : InfoBiGAN.init cfg = .ok m) :
    ∃ ks pd st bs,
      listify cfg.kernel_size (cfg.channels.length - 1) = .ok ks ∧
      listify cfg.padding (cfg.channels.length - 1) = .ok pd ∧
      listify cfg.stride (cfg.channels.length - 1) = .ok st ∧
      listify cfg.bias (cfg.channels.length - 1) = .ok bs ∧
      m = InfoBiGAN.assemble cfg ks pd st bs := by
  simp only [InfoBiGAN.init] at h
  cases hk : listify cfg.kernel_size (cfg.channels.length - 1) with
  | error e => rw [hk] at h; exact Except.noConfusion h
  | ok ks =>
  rw [hk] at h
  cases hp : listify cfg.padding (cfg.channels.length - 1) with
  | error e => rw [hp] at h; exact Except.noConfusion h
  | ok pd =>
  rw [hp] at h
  cases hs : listify cfg.stride (cfg.channels.length - 1) with
  | error e => rw [hs] at h; exact Except.noConfusion h
  | ok st =>
  rw [hs] at h
  cases hb : listify cfg.bias (cfg.channels.length - 1) with
  | error e => rw [hb] at h; exact Except.noConfusion h
  | ok bs =>
  rw [hb] at h
  exact ⟨ks, pd, st, bs, rfl, rfl, rfl, rfl, (Except.ok.inj h).symm⟩

/-- **C1.** For every valid configuration (one the constructor accepts), the
total latent dimensionality computed by `InfoBiGAN.__init__` equals
`latent_noise_dim + sum(reg_categorical) + reg_gaussian` exactly, and it is the
dimensionality all four sub-networks are sized with: the generator's
`latent_dim`, the discriminator's latent-input width and representation widths,
the regulariser's hidden width, and the combined output width of the encoder's
heads. -/
theorem total_latent_dim_correct (cfg : Config) (m : InfoBiGAN)
    (h : InfoBiGAN.init cfg = .ok m) :
    m.latent_dim = cfg.latent_dim + cfg.reg_categorical.sum + cfg.reg_gaussian ∧
    m.generator.latent_dim = m.latent_dim ∧
    m.discriminator.z_discriminator.channels = .seq [m.latent_dim] ∧
    m.discriminator.x_discriminator.out_dim = m.latent_dim * 2 ∧
    m.regulariser.q_input.out_dim = m.latent_dim * 2 ∧
    m.encoder.code_z.out_channels
        + (m.encoder.code_categorical.map Conv2dArch.out_channels).sum
        + ((m.encoder.code_gaussian.map Conv2dArch.out_channels).getD 0)
      = m.latent_dim := by
  obtain ⟨ks, pd, st, bs, _, _, _, _, rfl⟩ := InfoBiGAN.init_ok h
  refine ⟨rfl, rfl, rfl, rfl, rfl, ?_⟩
  have hmap : ∀ (hd : Nat) (ls : List Nat),
      ((ls.map (fun levels => (⟨hd, levels, 1, 1, 0, true⟩ : Conv2dArch))).map
        Conv2dArch.out_channels) = ls := by
    intro hd ls
    induction ls with
    | nil => rfl
    | cons a t ih => simp only [List.map_cons, ih]
  simp only [InfoBiGAN.assemble, RegularisedEncoder.init, QStack.init, listify1, hmap]
  by_cases hg : cfg.reg_gaussian > 0
  · simp [hg]
  · simp [hg, Nat.eq_zero_of_not_pos hg]

/-- Witness for C1 at the source's default configuration. -/
theorem total_latent_dim_correct_witness :
    defaultInfoBiGAN.latent_dim =
        defaultConfig.latent_dim + defaultConfig.reg_categorical.sum
          + defaultConfig.reg_gaussian ∧
      defaultInfoBiGAN.latent_dim = 112 :=
  ⟨(total_latent_dim_correct defaultConfig defaultInfoBiGAN rfl).1, rfl⟩

/-- **C10.** After construction, the attribute `latent_dim` holds the expanded
total (constructor argument `latent_dim` plus `sum(reg_categorical)` plus
`reg_gaussian`), the noise-only width is stored separately as `latent_noise`,
the discriminator and generator are constructed with the expanded total as
their `latent_dim`, and the regulariser with hidden width twice the expanded
total. -/
theorem latent_dim_attribute_is_expanded_total (cfg : Config) (m : InfoBiGAN)
    (h : InfoBiGAN.init cfg = .ok m) :
    m.latent_dim = cfg.latent_dim + cfg.reg_categorical.sum + cfg.reg_gaussian ∧
    m.latent_noise = cfg.latent_dim ∧
    m.generator.latent_dim =
      cfg.latent_dim + cfg.reg_categorical.sum + cfg.reg_gaussian ∧
    m.discriminator.z_discriminator.channels =
      .seq [cfg.latent_dim + cfg.reg_categorical.sum + cfg.reg_gaussian] ∧
    m.discriminator.x_discriminator.out_dim =
      (cfg.latent_dim + cfg.reg_categorical.sum + cfg.reg_gaussian) * 2 ∧
    m.regulariser.q_input.out_dim =
      (cfg.latent_dim + cfg.reg_categorical.sum + cfg.reg_gaussian) * 2 := by
  obtain ⟨ks, pd, st, bs, _, _, _, _, rfl⟩ := InfoBiGAN.init_ok h
  exact ⟨rfl, rfl, rfl, rfl, rfl, rfl⟩

/-- Witness for C10 at the source's default configuration. -/
theorem latent_dim_attribute_is_expanded_total_witness :
    defaultInfoBiGAN.latent_dim = 100 + [10].sum + 2 ∧
      defaultInfoBiGAN.latent_noise = 100 :=
  ⟨(latent_dim_attribute_is_expanded_total defaultConfig defaultInfoBiGAN rfl).1,
   (latent_dim_attribute_is_expanded_total defaultConfig defaultInfoBiGAN rfl).2.1⟩

/-- **C8.** The hidden width the orchestrator constructs `QStack` with equals
twice the total latent dimensionality, equals the `out_dim` the discriminator
gives its manifest-space stack (`latent_dim * 2` for the `latent_dim` it was
constructed with), and equals the depth of the manifest representation returned
as the second output of `DualDiscriminator.forward` — so that representation
can serve as `QStack`'s input without recomputation. -/
theorem qstack_hidden_matches_manifest_repr (cfg : Config) (m : InfoBiGAN)
    (h : InfoBiGAN.init cfg = .ok m) (D : DualDiscriminatorFn)
    (hD : RealisesDepth D.x_discriminator m.discriminator.x_discriminator.out_dim)
    (z : LatentInput) (x lo xr : List ℚ)
    (hf : D.forward z x = .ok (lo, xr)) :
    m.regulariser.q_input.out_dim = m.latent_dim * 2 ∧
    m.discriminator.x_discriminator.out_dim = m.latent_dim * 2 ∧
    xr.length = m.regulariser.q_input.out_dim := by
  obtain ⟨ks, pd, st, bs, _, _, _, _, rfl⟩ := InfoBiGAN.init_ok h
  refine ⟨rfl, rfl, ?_⟩
  have hxr : xr = D.x_discriminator.apply x := by
    unfold DualDiscriminatorFn.forward at hf
    cases hz : DualDiscriminator.flattenLatent z with
    | error e => rw [hz] at hf; exact Except.noConfusion hf
    | ok zf =>
      rw [hz] at hf
      exact ((Prod.mk.injEq _ _ _ _).mp (Except.ok.inj hf)).2.symm
  rw [hxr, hD x]
  rfl

/-- Witness for C8: a one-layer configuration with total latent width 4, a
stack realising depth 8, and a flat latent input. -/
theorem qstack_hidden_matches_manifest_repr_witness :
    smallInfoBiGAN.regulariser.q_input.out_dim = smallInfoBiGAN.latent_dim * 2 ∧
    smallInfoBiGAN.discriminator.x_discriminator.out_dim =
      smallInfoBiGAN.latent_dim * 2 ∧
    (List.replicate 8 (0 : ℚ)).length = smallInfoBiGAN.regulariser.q_input.out_dim :=
  qstack_hidden_matches_manifest_repr smallConfig smallInfoBiGAN rfl
    constantDiscriminator (fun _ => rfl) (.flat [0, 0, 0, 0]) [1]
    [] (List.replicate 8 0) rfl

/-- **C2.** The flattening performed by `DualDiscriminator.forward` and the
flattening performed by `RegularisedGenerator.forward` agree on every latent
input; on a structured code whose Gaussian component is present, both produce
the concatenation `[noise, gaussian, *categorical]` along the feature axis
(each categorical block in configured order). -/
theorem flatten_order_agrees (z : LatentInput) :
    DualDiscriminator.flattenLatent z = RegularisedGenerator.flattenLatent z ∧
    (∀ s g, z = .structured s → s.gaussian = some g →
      DualDiscriminator.flattenLatent z = .ok (s.noise ++ g ++ s.categorical.flatten)) := by
  constructor
  · cases z with
    | structured s =>
        cases hg : s.gaussian <;>
          simp [DualDiscriminator.flattenLatent, RegularisedGenerator.flattenLatent, hg]
    | flat v => rfl
  · rintro s g rfl hg
    simp [DualDiscriminator.flattenLatent, hg]

/-- Witness for C2 on a concrete structured code. -/
theorem flatten_order_agrees_witness :
    DualDiscriminator.flattenLatent
        (.structured ⟨[[1, 0]], some [5], [3, 4]⟩) =
      RegularisedGenerator.flattenLatent
        (.structured ⟨[[1, 0]], some [5], [3, 4]⟩) ∧
    DualDiscriminator.flattenLatent
        (.structured ⟨[[1, 0]], some [5], [3, 4]⟩) =
      .ok ([3, 4] ++ [5] ++ [[1, 0]].flatten) :=
  ⟨(flatten_order_agrees (.structured ⟨[[1, 0]], some [5], [3, 4]⟩)).1,
   (flatten_order_agrees (.structured ⟨[[1, 0]], some [5], [3, 4]⟩)).2
     ⟨[[1, 0]], some [5], [3, 4]⟩ [5] rfl rfl⟩

/-- Splitting the flattening of a block list at the blocks' own widths gives
back the blocks (helper for C3). -/
theorem splitParts_flatten (cats : List (List ℚ)) :
    splitParts (cats.map List.length) cats.flatten = cats := by
  induction cats with
  | nil => rfl
  | cons c cs ih =>
      simp only [List.map_cons, List.flatten_cons, splitParts,
        List.take_left, List.drop_left, ih]

/-- **C3.** Flattening a structured code (noise of width `latent_noise_dim`,
Gaussian of width `reg_gaussian`, categorical blocks of the configured level
counts) in the order `[noise, gaussian, *categorical]` and re-splitting the
flat vector at those widths recovers the original components exactly. -/
theorem flatten_split_roundtrip (noiseDim gaussDim : Nat) (levels : List Nat)
    (noise g : List ℚ) (cats : List (List ℚ)) (v : List ℚ)
    (hn : noise.length = noiseDim) (hg : g.length = gaussDim)
    (hc : cats.map List.length = levels)
    (hv : DualDiscriminator.flattenLatent (.structured ⟨cats, some g, noise⟩) = .ok v) :
    splitCode noiseDim gaussDim levels v = (noise, g, cats) := by
  have hv' : v = noise ++ (g ++ cats.flatten) := by
    have := Except.ok.inj hv
    rw [← this, List.append_assoc]
  subst hv' hn hg hc
  unfold splitCode
  rw [List.take_left, List.drop_left, List.take_left, List.drop_left,
    splitParts_flatten]

/-- Witness for C3 on a concrete structured code. -/
theorem flatten_split_roundtrip_witness :
    splitCode 2 1 [2] [3, 4, 5, 1, 0] = ([3, 4], [5], [[1, 0]]) :=
  flatten_split_roundtrip 2 1 [2] [3, 4] [5] [[1, 0]] [3, 4, 5, 1, 0]
    rfl rfl rfl rfl

/-- **C4** (failing case).  With `reg_gaussian = 0` the encoder emits a
structured code whose `'gaussian'` entry is absent, and both
`RegularisedGenerator.forward` and `DualDiscriminator.forward` then fail with
a `KeyError` at the dictionary access `z[0]['gaussian']` instead of accepting
the structured form; only pre-flattened vectors are accepted in that
configuration. -/
theorem structured_code_without_gaussian_rejected :
    (encoderNoGaussian.forward (fun _ => 1) 0 [1]).gaussian = none ∧
    (∀ net : DCTransposeFn,
      RegularisedGeneratorFn.forward net
        (.structured (encoderNoGaussian.forward (fun _ => 1) 0 [1])) =
      .error .keyError) ∧
    (∀ D : DualDiscriminatorFn, ∀ x : List ℚ,
      D.forward (.structured (encoderNoGaussian.forward (fun _ => 1) 0 [1])) x =
      .error .keyError) ∧
    (∀ net : DCTransposeFn,
      RegularisedGeneratorFn.forward net (.flat [1]) = .ok (net.apply [1])) :=
  ⟨rfl, fun _ => rfl, fun _ _ => rfl, fun _ => rfl⟩

/-- **C5.** For each of `kernel_size`, `stride`, `padding` and `bias`: a
scalar is expanded into `len(channels) - 1` identical copies; a sequence is
accepted exactly when its length is `len(channels) - 1`, and otherwise
construction fails with a configuration error (the `Except` result carries no
assembled networks, so no parameters are allocated). -/
theorem hyperparameter_normalisation {α : Type} (x : ScalarOrSeq α) (n : Nat)
    (cfg : Config) :
    (∀ a, x = .scalar a → listify x n = .ok (List.replicate n a)) ∧
    (∀ l, x = .seq l → l.length = n → listify x n = .ok l) ∧
    (∀ l, x = .seq l → l.length ≠ n → listify x n = .error .invalidConfig) ∧
    (∀ l, cfg.kernel_size = .seq l → l.length ≠ cfg.channels.length - 1 →
      InfoBiGAN.init cfg = .error .invalidConfig) ∧
    (∀ l, cfg.stride = .seq l → l.length ≠ cfg.channels.length - 1 →
      InfoBiGAN.init cfg = .error .invalidConfig) ∧
    (∀ l, cfg.padding = .seq l → l.length ≠ cfg.channels.length - 1 →
      InfoBiGAN.init cfg = .error .invalidConfig) ∧
    (∀ l : List Bool, cfg.bias = .seq l → l.length ≠ cfg.channels.length - 1 →
      InfoBiGAN.init cfg = .error .invalidConfig) ∧
    (∀ a m, cfg.kernel_size = .scalar a → InfoBiGAN.init cfg = .ok m →
      m.discriminator.x_discriminator.kernel_size =
        .seq (List.replicate (cfg.channels.length - 1) a)) := by
  have herr : ∀ e : ConfigError, e = ConfigError.invalidConfig := by
    intro e; cases e; rfl
  refine ⟨?_, ?_, ?_, ?_, ?_, ?_, ?_, ?_⟩
  · rintro a rfl; rfl
  · rintro l rfl hlen; simp [listify, hlen]
  · rintro l rfl hlen; simp [listify, hlen]
  · rintro l hx hlen
    cases hres : InfoBiGAN.init cfg with
    | error e => rw [herr e]
    | ok m =>
      obtain ⟨ks, pd, st, bs, hk, _, _, _, _⟩ := InfoBiGAN.init_ok hres
      rw [hx] at hk
      simp [listify, hlen] at hk
  · rintro l hx hlen
    cases hres : InfoBiGAN.init cfg with
    | error e => rw [herr e]
    | ok m =>
      obtain ⟨ks, pd, st, bs, _, _, hst, _, _⟩ := InfoBiGAN.init_ok hres
      rw [hx] at hst
      simp [listify, hlen] at hst
  · rintro l hx hlen
    cases hres : InfoBiGAN.init cfg with
    | error e => rw [herr e]
    | ok m =>
      obtain ⟨ks, pd, st, bs, _, hp, _, _, _⟩ := InfoBiGAN.init_ok hres
      rw [hx] at hp
      simp [listify, hlen] at hp
  · rintro l hx hlen
    cases hres : InfoBiGAN.init cfg with
    | error e => rw [herr e]
    | ok m =>
      obtain ⟨ks, pd, st, bs, _, _, _, hb, _⟩ := InfoBiGAN.init_ok hres
      rw [hx] at hb
      simp [listify, hlen] at hb
  · rintro a m hx hok
    obtain ⟨ks, pd, st, bs, hk, _, _, _, rfl⟩ := InfoBiGAN.init_ok hok
    rw [hx] at hk
    have hks : ks = List.replicate (cfg.channels.length - 1) a :=
      (Except.ok.inj hk).symm
    subst hks
    rfl

/-- Witness for C5: a scalar kernel size broadcasts to two copies, and a
sequence-valued kernel size of the wrong length makes construction fail. -/
theorem hyperparameter_normalisation_witness :
    listify (ScalarOrSeq.scalar (4 : Nat)) 2 = .ok (List.replicate 2 4) ∧
    InfoBiGAN.init badKernelConfig = .error .invalidConfig :=
  ⟨(hyperparameter_normalisation (ScalarOrSeq.scalar (4 : Nat)) 2
      badKernelConfig).1 4 rfl,
   (hyperparameter_normalisation (ScalarOrSeq.scalar (4 : Nat)) 2
      badKernelConfig).2.2.2.1 [4] rfl (by decide)⟩

/-- **C6.** If any of the four parameter sets passed to
`InfoBiGAN.load_state_dict` mismatches its sub-network's declared parameter
shapes, the load fails (an error is signalled, never a silent partial load);
in particular a mismatched parameter set for the encoder — which is loaded
first — is rejected without mutating the encoder's existing parameters (or any
other sub-network's). -/
theorem load_state_dict_rejects_mismatch (m : InfoBiGANParams)
    (pg pe pd pq : ParamSet)
    (h : m.encoder.shapes ≠ pe.shapes ∨ m.generator.shapes ≠ pg.shapes ∨
         m.discriminator.shapes ≠ pd.shapes ∨ m.regulariser.shapes ≠ pq.shapes) :
    (m.load_state_dict pg pe pd pq).2 = some .mismatch ∧
    (m.encoder.shapes ≠ pe.shapes →
      (m.load_state_dict pg pe pd pq).1.encoder = m.encoder ∧
      (m.load_state_dict pg pe pd pq).1 = m) := by
  unfold InfoBiGANParams.load_state_dict loadSubNet
  by_cases he : m.encoder.shapes = pe.shapes <;>
    by_cases hg : m.generator.shapes = pg.shapes <;>
      by_cases hd : m.discriminator.shapes = pd.shapes <;>
        by_cases hq : m.regulariser.shapes = pq.shapes <;>
          simp_all

/-- Witness for C6: loading an encoder parameter set with the wrong shape
fails and leaves the model untouched. -/
theorem load_state_dict_rejects_mismatch_witness :
    ((InfoBiGANParams.load_state_dict
        ⟨[⟨[1], [0]⟩], [⟨[2], [1, 1]⟩], [⟨[1], [0]⟩], [⟨[1], [0]⟩]⟩
        [⟨[1], [0]⟩] [⟨[3], [1, 1, 1]⟩] [⟨[1], [0]⟩] [⟨[1], [0]⟩]).2 =
      some .mismatch) ∧
    ((InfoBiGANParams.load_state_dict
        ⟨[⟨[1], [0]⟩], [⟨[2], [1, 1]⟩], [⟨[1], [0]⟩], [⟨[1], [0]⟩]⟩
        [⟨[1], [0]⟩] [⟨[3], [1, 1, 1]⟩] [⟨[1], [0]⟩] [⟨[1], [0]⟩]).1.encoder =
      [⟨[2], [1, 1]⟩]) := by
  have := load_state_dict_rejects_mismatch
    ⟨[⟨[1], [0]⟩], [⟨[2], [1, 1]⟩], [⟨[1], [0]⟩], [⟨[1], [0]⟩]⟩
    [⟨[1], [0]⟩] [⟨[3], [1, 1, 1]⟩] [⟨[1], [0]⟩] [⟨[1], [0]⟩]
    (Or.inl (by decide))
  exact ⟨this.1, (this.2 (by decide)).1⟩

/-- **C7.** `RegularisedEncoder.forward` is deterministic: with identical
weights and identical input, the structured latent code it produces does not
depend on the runtime's random stream — no layer of the forward pass consumes
randomness. -/
theorem encoder_forward_deterministic (E : RegularisedEncoderFn) (e : ℚ → ℚ)
    (x : List ℚ) (r₁ r₂ : Nat) :
    E.forward e r₁ x = E.forward e r₂ x := rfl

/-- Mapping division by a fixed denominator through a list divides the sum
(helper for C9). -/
theorem sum_map_div (l : List ℚ) (s : ℚ) :
    (l.map (fun a => a / s)).sum = l.sum / s := by
  induction l with
  | nil => simp
  | cons a t ih => simp [ih, div_add_div_same]

/-- A softmax layer's output sums to 1 on any nonempty input, for any strictly
positive exponential (helper for C9). -/
theorem softmax_sum_eq_one (e : ℚ → ℚ) (he : ∀ q, 0 < e q) (v : List ℚ)
    (hv : v ≠ []) : (softmax e v).sum = 1 := by
  have hpos : 0 < (v.map e).sum := by
    refine List.sum_pos _ ?_ (by simpa using hv)
    intro a ha
    obtain ⟨b, _, rfl⟩ := List.mem_map.mp ha
    exact he b
  unfold softmax
  rw [sum_map_div]
  exact div_self hpos.ne'

/-- A well-formed 1×1 convolution head produces a nonempty output (helper for
C9). -/
theorem Conv1x1.apply_ne_nil (c : Conv1x1) (hw : c.wf) (x : List ℚ) :
    c.apply x ≠ [] := by
  obtain ⟨hlen, hne⟩ := hw
  unfold Conv1x1.apply
  cases hwt : c.weight with
  | nil => exact absurd hwt hne
  | cons w ws =>
    cases hb : c.bias with
    | nil => rw [hwt, hb] at hlen; simp at hlen
    | cons b bs => simp [hwt, hb]

/-- **C9.** For every input and every configured categorical variable, the
categorical output head of the encoder and of `QStack` — a 1×1 convolution
followed by softmax — yields a vector over that variable's levels whose
entries sum to 1 along the category axis. -/
theorem categorical_heads_sum_to_one
    (e : ℚ → ℚ) (he : ∀ q, 0 < e q)
    (E : RegularisedEncoderFn) (Q : QStackFn)
    (rng i j : Nat) (x y : List ℚ)
    (hiE : i < E.reg_categorical)
    (hwE : (E.code_categorical.getD i ⟨[], []⟩).wf)
    (hjQ : j < Q.reg_categorical)
    (hwQ : (Q.q_cat.getD j ⟨[], []⟩).wf) :
    ((E.forward e rng x).categorical.getD i []).sum = 1 ∧
    ((Q.forward e y).categorical.getD j []).sum = 1 := by
  have hget : ∀ {β : Type} (n : Nat) (f : Nat → β) (d : β) (k : Nat), k < n →
      ((List.range n).map f).getD k d = f k := by
    intro β n f d k hk
    rw [List.getD_eq_getElem _ _ (by simpa using hk)]
    simp
  constructor
  · show (((List.range E.reg_categorical).map
        (fun k => softmax e
          ((E.code_categorical.getD k ⟨[], []⟩).apply (E.conv.apply x)))).getD
        i []).sum = 1
    rw [hget _ _ _ _ hiE]
    exact softmax_sum_eq_one e he _ (Conv1x1.apply_ne_nil _ hwE _)
  · show (((List.range Q.reg_categorical).map
        (fun k => softmax e
          ((Q.q_cat.getD k ⟨[], []⟩).apply (Q.q_input.apply y)))).getD
        j []).sum = 1
    rw [hget _ _ _ _ hjQ]
    exact softmax_sum_eq_one e he _ (Conv1x1.apply_ne_nil _ hwQ _)

/-- Witness for C9 on concrete one-head networks. -/
theorem categorical_heads_sum_to_one_witness :
    ((exEncoder.forward (fun _ => 1) 0 [1]).categorical.getD 0 []).sum = 1 ∧
    ((exQStack.forward (fun _ => 1) [1]).categorical.getD 0 []).sum = 1 :=
  categorical_heads_sum_to_one (fun _ => 1) (fun _ => one_pos) exEncoder exQStack
    0 0 0 [1] [1] (by decide) (by decide) (by decide) (by decide)

end InfoBiGANTorch
